import Mathlib

/-!
Verification of the EVS automation client (`evs_automation.py`, `evs_util.py`):
a shallow embedding of its process resolution, named-pipe connection
establishment, JSON-RPC request/response mechanics, scoped session flows and
date-format helpers, together with theorems settling the specified properties.

Python exceptions are modelled with `Except`; the effects of a run (remote
calls issued, channel closes, sleeps) are modelled as explicit event traces;
machine-level collaborators (`CreateFile`, `SetNamedPipeHandleState`,
`json.loads`, the OS process table) are parameters (oracles) of the embedded
functions, so every definition stays executable.
-/

set_option autoImplicit false

namespace Evs

/-- Parsed JSON values, as produced by `json.loads` / consumed by `json.dumps`.
Numbers are modelled as rationals, which represent every decimal literal
exactly and make Python's cross-type numeric equality (`1 == 1.0`) direct. -/
inductive Json where
  | null
  | bool (b : Bool)
  | num (q : Rat)
  | str (s : String)
  | arr (elems : List Json)
  | obj (fields : List (String × Json))

/-- Python truthiness (`if res[...]:`) of a parsed JSON value:
`None`, `False`, `0`, `""`, `[]` and `{}` are falsy. -/
def truthy : Json → Bool
  | Json.null => false
  | Json.bool b => b
  | Json.num q => decide (q ≠ 0)
  | Json.str s => decide (s ≠ "")
  | Json.arr elems => !elems.isEmpty
  | Json.obj fields => !fields.isEmpty

/-- First-match association-list lookup (Python dict keys are unique, so this
is dict access). -/
def lookupField : List (String × Json) → String → Option Json
  | [], _ => none
  | (k, v) :: rest, key => if k = key then some v else lookupField rest key

/-- Embeds `res[key]` on a parsed JSON value: `none` models the `KeyError` /
`TypeError` a non-dict or missing key raises. -/
def Json.lookup : Json → String → Option Json
  | Json.obj fields, key => lookupField fields key
  | _, _ => none

/-- Python's `x == 1.0` for a parsed JSON value against a float literal:
numbers (and bools, which are numeric in Python) compare by value, every
other type is unequal to a float. Models the `version != 1.0` check. -/
def pyEqFloat (v : Json) (q : Rat) : Bool :=
  match v with
  | Json.bool b => decide ((if b then (1 : Rat) else 0) = q)
  | Json.num n => decide (n = q)
  | _ => false

/-- Exceptions raised by the embedded code. `valueError` carries the
constructor argument of Python's `ValueError` (a string message, or the raw
`res['Error']` value in `__build_result`); `canceledByUser` is the dedicated
cancellation exception; `other` stands for any exception foreign to this
module, e.g. one raised by the caller's own logic inside a session scope. -/
inductive Exc where
  | valueError (arg : Json)
  | canceledByUser (arg : Json)
  | other (tag : Nat)

/-- Embeds `_EvsProcess.__build_result` applied to the parsed response `res`:
`if res['Success']: return res['Value'] else: raise ValueError(res['Error'])`. -/
def build_result (res : Json) : Except Exc Json :=
  match res.lookup "Success" with
  | none => Except.error (Exc.other 0)
  | some s =>
    if truthy s then
      match res.lookup "Value" with
      | none => Except.error (Exc.other 0)
      | some v => Except.ok v
    else
      match res.lookup "Error" with
      | none => Except.error (Exc.other 0)
      | some e => Except.error (Exc.valueError e)

/-- Embeds `_EvsProcess.check_cancel`, given the parsed response to the
`CheckCancel` call: raise `CanceledByUser` when the unwrapped value is
truthy, otherwise return `None`. -/
def check_cancel (res : Json) : Except Exc Unit :=
  match build_result res with
  | Except.error e => Except.error e
  | Except.ok canceled =>
    if truthy canceled then
      Except.error (Exc.canceledByUser (Json.str "Script canceled by user."))
    else
      Except.ok ()

/-- The mutable fields of `_EvsProcess` that `close` touches: the pipe
handle and the process id, both `None`-able. -/
structure EvsProcessState where
  handle : Option Nat
  pid : Option Int

/-- Embeds `_EvsProcess.close`: return `False` without effect when the handle is
already `None`; otherwise close the handle, clear both fields, return
`True`. -/
def close (p : EvsProcessState) : EvsProcessState × Bool :=
  match p.handle with
  | none => (p, false)
  | some _ => ({ handle := none, pid := none }, true)

/-- One row of the OS process table, as seen through `psutil`. -/
structure ProcEntry where
  pid : Int
  name : String

/-- The executable name `_set_or_find_pid` scans for. -/
def evsExeName : String := "EarthVolumetricStudio.exe"

/-- Embeds `_set_or_find_pid`, with the process table made explicit. With the
sentinel `-1` it folds over the table keeping the most recently enumerated
process named `EarthVolumetricStudio.exe` (`process = proc` overwrites on
every match); with a concrete pid it validates liveness via
`psutil.Process(pid)` and returns `process.pid`. -/
def set_or_find_pid (table : List ProcEntry) (pid : Int) : Except Exc Int :=
  if pid = -1 then
    match table.foldl
        (fun acc proc => if proc.name = evsExeName then some proc else acc)
        none with
    | none => Except.error (Exc.valueError (Json.str
        "EVS Process not found. Please specify Process ID or guarantee that EVS is already running."))
    | some process => Except.ok process.pid
  else
    match table.find? (fun proc => proc.pid = pid) with
    | some process => Except.ok process.pid
    | none => Except.error (Exc.valueError (Json.str
        "Invalid Process ID specified. EVS Process not found."))

/-- The deterministic per-process pipe name
`f'\\\\.\\pipe\\EVS_{self.__pid}'`. -/
def pipeName (pid : Int) : String := "\\\\.\\pipe\\EVS_" ++ toString pid

/-- One lowercase hex digit. -/
def hexDigit (n : Nat) : Char := Nat.digitChar (n % 16)

/-- Four lowercase hex digits, as in a JSON `\uXXXX` escape. -/
def hex4 (n : Nat) : List Char :=
  [hexDigit (n / 4096), hexDigit (n / 256), hexDigit (n / 16), hexDigit n]

/-- Models `json.dumps` escaping of one character with the default
`ensure_ascii=True`: the two-character escapes for quote, backslash and
control characters with short forms, `\u00XX` for other control characters,
`\uXXXX` (a surrogate pair beyond the BMP) for every non-ASCII character,
and the character itself otherwise. -/
def escapeChar (c : Char) : List Char :=
  if c = '"' then ['\\', '"']
  else if c = '\\' then ['\\', '\\']
  else if c = '\n' then ['\\', 'n']
  else if c = '\r' then ['\\', 'r']
  else if c = '\t' then ['\\', 't']
  else if c.toNat = 8 then ['\\', 'b']
  else if c.toNat = 12 then ['\\', 'f']
  else if c.toNat < 32 ∨ c.toNat > 126 then
    if c.toNat < 65536 then '\\' :: 'u' :: hex4 c.toNat
    else
      ('\\' :: 'u' :: hex4 (55296 + (c.toNat - 65536) / 1024)) ++
        ('\\' :: 'u' :: hex4 (56320 + (c.toNat - 65536) % 1024))
  else [c]

/-- A JSON string literal: quotes around the escaped characters. -/
def dumpsString (s : String) : String :=
  String.mk ('"' :: s.data.flatMap escapeChar ++ ['"'])

mutual

/-- Models `json.dumps` with its defaults (item separator is a comma and a space,
key separator a colon and a space, `ensure_ascii=True`). Integral numbers
print as Python ints; the non-integral branch stands in for CPython's float
`repr`, whose exact digits no embedded frame in this development depends
on. -/
def dumps : Json → String
  | Json.null => "null"
  | Json.bool true => "true"
  | Json.bool false => "false"
  | Json.num q => if q.den = 1 then toString q.num else toString q
  | Json.str s => dumpsString s
  | Json.arr elems => "[" ++ dumpsList elems ++ "]"
  | Json.obj fields => "\x7b" ++ dumpsFields fields ++ "\x7d"

/-- Array elements joined by the default item separator. -/
def dumpsList : List Json → String
  | [] => ""
  | [j] => dumps j
  | j :: rest => dumps j ++ ", " ++ dumpsList rest

/-- Object members joined by the default separators. -/
def dumpsFields : List (String × Json) → String
  | [] => ""
  | [(k, v)] => dumpsString k ++ ": " ++ dumps v
  | (k, v) :: rest => dumpsString k ++ ": " ++ dumps v ++ ", " ++ dumpsFields rest

end

/-- UTF-8 encoding of one character (`str.encode('utf-8')`), bytes as
naturals. -/
def utf8EncodeChar (c : Char) : List Nat :=
  let n := c.toNat
  if n < 128 then [n]
  else if n < 2048 then [192 + n / 64, 128 + n % 64]
  else if n < 65536 then [224 + n / 4096, 128 + n / 64 % 64, 128 + n % 64]
  else [240 + n / 262144, 128 + n / 4096 % 64, 128 + n / 64 % 64, 128 + n % 64]

/-- UTF-8 encoding of a string. -/
def utf8Encode (s : String) : List Nat := s.data.flatMap utf8EncodeChar

/-- The observable I/O state of an open pipe: the byte frames written so far
(one `WriteFile` call is one message-mode frame) and the queue of text
frames the remote will deliver, one per `ReadFile` call. -/
structure Channel where
  sentFrames : List (List Nat)
  incoming : List String

/-- Embeds `_EvsProcess.__write`: append the newline terminator, UTF-8-encode, and
send the result as a single frame. -/
def chanWrite (ch : Channel) (msg : String) : Channel :=
  { ch with sentFrames := ch.sentFrames ++ [utf8Encode (msg ++ "\n")] }

/-- Embeds `_EvsProcess.__read`: receive exactly one frame; `none` models a read
that raises because the pipe delivered nothing. -/
def chanRead (ch : Channel) : Option (String × Channel) :=
  match ch.incoming with
  | [] => none
  | m :: rest => some (m, { ch with incoming := rest })

/-- Embeds `_EvsProcess.__send_json`: serialize with `json.dumps` and write. -/
def send_json (ch : Channel) (pyobj : Json) : Channel :=
  chanWrite ch (dumps pyobj)

/-- Embeds `_EvsProcess.__recv_json`: read one frame and parse it with
`json.loads`, which is the stdlib collaborator `loads`. -/
def recv_json (loads : String → Option Json) (ch : Channel) :
    Option (Json × Channel) :=
  match chanRead ch with
  | none => none
  | some (m, ch2) =>
    match loads m with
    | none => none
    | some j => some (j, ch2)

/-- Embeds `_EvsProcess.__request`: send the `{"method": method, "args": args}`
envelope as one frame, then receive and parse exactly one response frame. -/
def request (loads : String → Option Json) (ch : Channel)
    (method : String) (args : List Json) : Option (Json × Channel) :=
  recv_json loads
    (send_json ch (Json.obj [("method", Json.str method), ("args", Json.arr args)]))

/-- Phase 1 of `_EvsProcess.__init__`, exactly as written: `attempts_remaining`
is set to 5 and the loop runs `while attempts_remaining > 0`, breaking with a
handle when `CreateFile` succeeds and sleeping one second when it raises —
the failure branch never decrements `attempts_remaining`. `createOracle i`
is the outcome of the `i`-th `CreateFile` call; the extra `fuel` argument
counts loop iterations we are willing to observe, with `none` meaning the
loop was still running when the fuel ran out. -/
def initPhase1 (createOracle : Nat → Option Nat) (attempts_remaining : Int)
    (idx : Nat) : Nat → Option (Option Nat)
  | 0 => none
  | Nat.succ fuel =>
    if attempts_remaining > 0 then
      match createOracle idx with
      | some h => some (some h)
      | none => initPhase1 createOracle attempts_remaining (idx + 1) fuel
    else
      some none

/-- An observable step of phase 2 of `_EvsProcess.__init__`: one
`SetNamedPipeHandleState(..., PIPE_READMODE_MESSAGE, ...)` attempt, or one
`time.sleep(1)`. -/
inductive P2Event where
  | setModeAttempt (idx : Nat)
  | sleepOneSecond

/-- Phase 2 of `_EvsProcess.__init__`: with `attempts_remaining` many tries
left, attempt to put the pipe into message read mode; on result 0 sleep one
second and decrement, otherwise set `success` and break. `setModeOracle i`
tells whether the `i`-th attempt succeeds. Returns the event trace and the
final `success` flag. -/
def initPhase2 (setModeOracle : Nat → Bool) (idx : Nat) :
    Nat → List P2Event × Bool
  | 0 => ([], false)
  | Nat.succ attempts_remaining =>
    if setModeOracle idx then ([P2Event.setModeAttempt idx], true)
    else
      let rest := initPhase2 setModeOracle (idx + 1) attempts_remaining
      (P2Event.setModeAttempt idx :: P2Event.sleepOneSecond :: rest.1, rest.2)

/-- Embeds `_EvsProcess.__init__(pid, timeout)`: phase 1 (pipe opening, `none` when
that loop is still running after `fuel` iterations), then phase 2 (read-mode
negotiation for up to `timeout` attempts), raising
`ValueError('Invalid Process ID specified. EVS Process not found or connection refused.')`
when phase 2 never succeeds. The successful result carries the pipe handle
of the ready channel. Phase 2 on a phase-1 failure (`__handle` still `None`)
would raise inside `SetNamedPipeHandleState`; that branch is unreachable
because phase 1 as written can only terminate via its `break`. -/
def evsProcessInit (createOracle : Nat → Option Nat) (fuel : Nat)
    (setModeOracle : Nat → Bool) (timeout : Nat) :
    Option (List P2Event × Except Exc Nat) :=
  match initPhase1 createOracle 5 0 fuel with
  | none => none
  | some none => some ([], Except.error (Exc.other 1))
  | some (some h) =>
    let r := initPhase2 setModeOracle 0 timeout
    if r.2 then some (r.1, Except.ok h)
    else some (r.1, Except.error (Exc.valueError (Json.str
      "Invalid Process ID specified. EVS Process not found or connection refused.")))

/-- Number of `SetNamedPipeHandleState` attempts in a phase-2 trace. -/
def attemptCount : List P2Event → Nat
  | [] => 0
  | P2Event.setModeAttempt _ :: rest => attemptCount rest + 1
  | P2Event.sleepOneSecond :: rest => attemptCount rest

/-- Number of one-second sleeps in a phase-2 trace. -/
def sleepCount : List P2Event → Nat
  | [] => 0
  | P2Event.sleepOneSecond :: rest => sleepCount rest + 1
  | P2Event.setModeAttempt _ :: rest => sleepCount rest

/-- An observable event of a session flow: a remote call issued through
`__build_result`, or a `close()` that actually closed the pipe handle. -/
inductive Event where
  | call (method : String)
  | closed

/-- Number of channel closes in a flow trace. -/
def closedCount : List Event → Nat
  | [] => 0
  | Event.closed :: rest => closedCount rest + 1
  | _ :: rest => closedCount rest

/-- The remote's behavior during one scoped session, plus what the caller's
own logic does: parsed responses for the `Version`, `WaitForReady` and
`Shutdown` calls, and the caller scope's outcome (normal return or an
exception of its own). -/
structure FlowEnv where
  versionResp : Json
  waitResp : Json
  shutdownResp : Json
  callerOutcome : Except Exc Unit

/-- The `try:` block shared verbatim by `start_new` and
`connect_to_existing`: query the API version, raise
`ValueError('EVS does not support proper API version for this release.')`
unless it equals `1.0`, optionally wait for ready, then run the caller's
scope (the `yield proc`). Returns the remote calls issued and the block's
outcome. -/
def sessionTry (env : FlowEnv) (auto_wait_for_ready : Bool) :
    List Event × Except Exc Unit :=
  match build_result env.versionResp with
  | Except.error e => ([Event.call "Version"], Except.error e)
  | Except.ok version =>
    if pyEqFloat version 1 = false then
      ([Event.call "Version"], Except.error (Exc.valueError (Json.str
        "EVS does not support proper API version for this release.")))
    else if auto_wait_for_ready then
      match build_result env.waitResp with
      | Except.error e =>
        ([Event.call "Version", Event.call "WaitForReady"], Except.error e)
      | Except.ok _ =>
        ([Event.call "Version", Event.call "WaitForReady"], env.callerOutcome)
    else
      ([Event.call "Version"], env.callerOutcome)

/-- The `except:`/`else:` epilogue shared verbatim by both flows: on any
exception from the `try:` block, `proc.close()` then re-`raise`; on normal
completion, `proc.shutdown()` when `auto_shutdown` (an exception there
propagates out of the `else:` block uncaught, skipping the close), then
`proc.close()`. -/
def sessionFinish (env : FlowEnv) (auto_shutdown : Bool)
    (tryOut : List Event × Except Exc Unit) : List Event × Except Exc Unit :=
  match tryOut with
  | (evs, Except.error e) => (evs ++ [Event.closed], Except.error e)
  | (evs, Except.ok ()) =>
    if auto_shutdown then
      match build_result env.shutdownResp with
      | Except.error e => (evs ++ [Event.call "Shutdown"], Except.error e)
      | Except.ok _ =>
        (evs ++ [Event.call "Shutdown", Event.closed], Except.ok ())
    else
      (evs ++ [Event.closed], Except.ok ())

/-- The scoped part of `start_new` (from the `try:` after the process is
spawned and connected): trace of remote calls and closes, and the flow's
outcome. Source defaults: `auto_shutdown = True`, `auto_wait_for_ready =
True`. -/
def start_new (env : FlowEnv) (auto_shutdown auto_wait_for_ready : Bool) :
    List Event × Except Exc Unit :=
  sessionFinish env auto_shutdown (sessionTry env auto_wait_for_ready)

/-- The scoped part of `connect_to_existing` (from the `try:` after
`_set_or_find_pid` and the connection): textually the same scope as
`start_new`'s. Source defaults: `auto_shutdown = False`,
`auto_wait_for_ready = True`. -/
def connect_to_existing (env : FlowEnv) (auto_shutdown auto_wait_for_ready : Bool) :
    List Event × Except Exc Unit :=
  sessionFinish env auto_shutdown (sessionTry env auto_wait_for_ready)

/-- A naive `datetime.datetime`: the seven fields the scripting date formats
carry (no timezone, which the formats cannot express). -/
structure Datetime where
  year : Nat
  month : Nat
  day : Nat
  hour : Nat
  minute : Nat
  second : Nat
  microsecond : Nat

/-- Zero-padded fixed-width decimal rendering, most significant digit first:
`strftime`'s `%Y`/`%m`/`%d`/`%H`/`%M`/`%S`/`%f` on this Windows-only module
(the Windows CRT pads `%Y` to four digits). -/
def padNum : Nat → Nat → List Char
  | 0, _ => []
  | Nat.succ w, n => Nat.digitChar (n / 10 ^ w) :: padNum w (n % 10 ^ w)

/-- Read exactly `w` decimal digits, accumulating left to right:
`strptime`'s fixed-width numeric directives on the zero-padded strings this
module produces. -/
def readNum (acc : Nat) : Nat → List Char → Option (Nat × List Char)
  | 0, cs => some (acc, cs)
  | Nat.succ _, [] => none
  | Nat.succ w, c :: cs =>
    if c.isDigit then readNum (acc * 10 + (c.toNat - 48)) w cs else none

/-- Consume one expected literal character of the format string. -/
def expectChar (c : Char) : List Char → Option (List Char)
  | [] => none
  | x :: xs => if x = c then some xs else none

/-- Gregorian leap year, as `datetime` validates days. -/
def isLeapYear (y : Nat) : Bool :=
  y % 4 = 0 && (y % 100 ≠ 0 || y % 400 = 0)

/-- Days in a month, as `datetime` validates the day field. -/
def daysInMonth (y m : Nat) : Nat :=
  if m = 2 then (if isLeapYear y then 29 else 28)
  else if m = 4 ∨ m = 6 ∨ m = 9 ∨ m = 11 then 30
  else 31

/-- The `datetime.datetime` constructor's range checks, which `strptime`
applies to the fields it read. -/
def validDatetime (d : Datetime) : Bool :=
  1 ≤ d.year && d.year ≤ 9999 && 1 ≤ d.month && d.month ≤ 12 &&
    1 ≤ d.day && d.day ≤ daysInMonth d.year d.month &&
    d.hour ≤ 23 && d.minute ≤ 59 && d.second ≤ 59 && d.microsecond ≤ 999999

/-- Models `datetime.strptime(s, "%Y-%m-%dT%H:%M:%S.%f")`: the fractional format
`evsdate_to_datetime` tries first. `none` models the `ValueError` raised on
a mismatch, trailing input, or out-of-range fields. -/
def strptimeFrac (cs0 : List Char) : Option Datetime :=
  match readNum 0 4 cs0 with
  | none => none
  | some (y, cs1) =>
  match expectChar '-' cs1 with
  | none => none
  | some cs2 =>
  match readNum 0 2 cs2 with
  | none => none
  | some (mo, cs3) =>
  match expectChar '-' cs3 with
  | none => none
  | some cs4 =>
  match readNum 0 2 cs4 with
  | none => none
  | some (da, cs5) =>
  match expectChar 'T' cs5 with
  | none => none
  | some cs6 =>
  match readNum 0 2 cs6 with
  | none => none
  | some (h, cs7) =>
  match expectChar ':' cs7 with
  | none => none
  | some cs8 =>
  match readNum 0 2 cs8 with
  | none => none
  | some (mi, cs9) =>
  match expectChar ':' cs9 with
  | none => none
  | some cs10 =>
  match readNum 0 2 cs10 with
  | none => none
  | some (s, cs11) =>
  match expectChar '.' cs11 with
  | none => none
  | some cs12 =>
  match readNum 0 6 cs12 with
  | none => none
  | some (us, cs13) =>
  match cs13 with
  | [] =>
    if validDatetime ⟨y, mo, da, h, mi, s, us⟩ then
      some ⟨y, mo, da, h, mi, s, us⟩
    else none
  | _ => none

/-- Models `datetime.strptime(s, "%Y-%m-%dT%H:%M:%S")`: the fallback format without
fractional seconds; a parsed value gets microsecond 0. -/
def strptimeNoFrac (cs0 : List Char) : Option Datetime :=
  match readNum 0 4 cs0 with
  | none => none
  | some (y, cs1) =>
  match expectChar '-' cs1 with
  | none => none
  | some cs2 =>
  match readNum 0 2 cs2 with
  | none => none
  | some (mo, cs3) =>
  match expectChar '-' cs3 with
  | none => none
  | some cs4 =>
  match readNum 0 2 cs4 with
  | none => none
  | some (da, cs5) =>
  match expectChar 'T' cs5 with
  | none => none
  | some cs6 =>
  match readNum 0 2 cs6 with
  | none => none
  | some (h, cs7) =>
  match expectChar ':' cs7 with
  | none => none
  | some cs8 =>
  match readNum 0 2 cs8 with
  | none => none
  | some (mi, cs9) =>
  match expectChar ':' cs9 with
  | none => none
  | some cs10 =>
  match readNum 0 2 cs10 with
  | none => none
  | some (s, cs11) =>
  match cs11 with
  | [] =>
    if validDatetime ⟨y, mo, da, h, mi, s, 0⟩ then
      some ⟨y, mo, da, h, mi, s, 0⟩
    else none
  | _ => none

/-- Embeds `evs_util.evsdate_to_datetime`: try the fractional format, and on its
`ValueError` fall back to the whole-second format. -/
def evsdate_to_datetime (cs : List Char) : Option Datetime :=
  match strptimeFrac cs with
  | some d => some d
  | none => strptimeNoFrac cs

/-- Embeds `evs_util.datetime_to_evsdate`:
`d.strftime("%Y-%m-%dT%H:%M:%S.%f")`. -/
def datetime_to_evsdate (d : Datetime) : List Char :=
  padNum 4 d.year ++ '-' ::
    (padNum 2 d.month ++ '-' ::
      (padNum 2 d.day ++ 'T' ::
        (padNum 2 d.hour ++ ':' ::
          (padNum 2 d.minute ++ ':' ::
            (padNum 2 d.second ++ '.' :: padNum 6 d.microsecond)))))

/-! ## Theorems -/

/-- C3: unwrapping a well-formed RPC response has exactly two outcomes: when
the `Success` field is `true` the `Value` field is returned unchanged, and
when it is `false` a `RemoteError` (`ValueError`) carrying the `Error` field
verbatim is raised. -/
theorem build_result_unwrap (res value err : Json) :
    (res.lookup "Success" = some (Json.bool true) →
      res.lookup "Value" = some value →
      build_result res = Except.ok value) ∧
    (res.lookup "Success" = some (Json.bool false) →
      res.lookup "Error" = some err →
      build_result res = Except.error (Exc.valueError err)) := by
  constructor
  · intro hs hv
    simp [build_result, hs, hv, truthy]
  · intro hs he
    simp [build_result, hs, he, truthy]

theorem build_result_unwrap_witness :
    build_result (Json.obj [("Success", Json.bool true),
        ("Value", Json.arr [Json.str "A", Json.str "B"])]) =
      Except.ok (Json.arr [Json.str "A", Json.str "B"]) ∧
    build_result (Json.obj [("Success", Json.bool false),
        ("Error", Json.str "bad module")]) =
      Except.error (Exc.valueError (Json.str "bad module")) :=
  ⟨(build_result_unwrap _ (Json.arr [Json.str "A", Json.str "B"])
      (Json.str "bad module")).1 rfl rfl,
   (build_result_unwrap _ (Json.arr [Json.str "A", Json.str "B"])
      (Json.str "bad module")).2 rfl rfl⟩

/-- C6: `close` is idempotent: on a handle-less (never-opened or
already-closed) process state it is a no-op returning `False`; on an open
one it closes the handle, clears both fields and returns `True`; and a
second `close` right after a first one is always a no-op. -/
theorem close_idempotent (p : EvsProcessState) :
    (p.handle = none → close p = (p, false)) ∧
    (∀ h, p.handle = some h →
      close p = ({ handle := none, pid := none }, true)) ∧
    close (close p).1 = ((close p).1, false) := by
  rcases p with ⟨handle, pid⟩
  cases handle <;> simp [close]

theorem close_idempotent_witness :
    close { handle := none, pid := none } = ({ handle := none, pid := none }, false) ∧
    close { handle := some 4, pid := some 9 } = ({ handle := none, pid := none }, true) :=
  ⟨(close_idempotent { handle := none, pid := none }).1 rfl,
   (close_idempotent { handle := some 4, pid := some 9 }).2.1 4 rfl⟩

/-- C9: `check_cancel` raises `CanceledByUser` exactly when the remote's
`CheckCancel` call reports a cancellation (truthy unwrapped value); a falsy
report returns normally with no effect, and a failed call propagates that
failure instead of a cancellation. -/
theorem check_cancel_iff (res v : Json) (e : Exc) :
    (res.lookup "Success" = some (Json.bool true) →
      res.lookup "Value" = some v →
      ((truthy v = true →
          check_cancel res =
            Except.error (Exc.canceledByUser (Json.str "Script canceled by user."))) ∧
        (truthy v = false → check_cancel res = Except.ok ()))) ∧
    (build_result res = Except.error e → check_cancel res = Except.error e) := by
  constructor
  · intro hs hv
    have hok : build_result res = Except.ok v := by
      simp [build_result, hs, hv, truthy]
    constructor
    · intro ht
      simp [check_cancel, hok, ht]
    · intro ht
      simp [check_cancel, hok, ht]
  · intro hb
    simp [check_cancel, hb]

theorem check_cancel_iff_witness :
    check_cancel (Json.obj [("Success", Json.bool true), ("Value", Json.bool true)]) =
      Except.error (Exc.canceledByUser (Json.str "Script canceled by user.")) ∧
    check_cancel (Json.obj [("Success", Json.bool true), ("Value", Json.bool false)]) =
      Except.ok () :=
  ⟨((check_cancel_iff
        (Json.obj [("Success", Json.bool true), ("Value", Json.bool true)])
        (Json.bool true) (Exc.other 0)).1 rfl rfl).1 rfl,
   ((check_cancel_iff
        (Json.obj [("Success", Json.bool true), ("Value", Json.bool false)])
        (Json.bool false) (Exc.other 0)).1 rfl rfl).2 rfl⟩

/-- The `_set_or_find_pid` scan keeps exactly the last-enumerated matching
process: folding the overwrite-on-match step equals the last element of the
filtered table (falling back to the accumulator). -/
theorem scan_foldl_eq (table : List ProcEntry) (acc : Option ProcEntry) :
    table.foldl (fun a proc => if proc.name = evsExeName then some proc else a) acc
      = Option.or (table.filter (fun p => p.name = evsExeName)).getLast? acc := by
  induction table generalizing acc with
  | nil => simp
  | cons hd tl ih =>
    simp only [List.foldl_cons, ih]
    by_cases h : hd.name = evsExeName
    · simp only [List.filter_cons, h, decide_True, if_true]
      cases hft : (tl.filter (fun p => decide (p.name = evsExeName))) with
      | nil => simp
      | cons x xs =>
        rw [List.getLast?_eq_getLast_of_ne_nil (l := hd :: x :: xs) (by simp),
            List.getLast?_eq_getLast_of_ne_nil (l := x :: xs) (by simp)]
        simp [List.getLast_cons_cons]
    · simp [List.filter_cons, h]

/-- C7: with the sentinel hint `-1`, resolution scans the process table for
the known executable name and returns the pid of the last-enumerated match,
failing with `ProcessNotFound` when nothing matches; with a concrete hint it
returns that pid when it names a live process and fails with
`InvalidProcessId` otherwise. -/
theorem set_or_find_pid_spec (table : List ProcEntry) (pid : Int) :
    (set_or_find_pid table (-1) =
      match (table.filter (fun p => p.name = evsExeName)).getLast? with
      | some process => Except.ok process.pid
      | none => Except.error (Exc.valueError (Json.str
          "EVS Process not found. Please specify Process ID or guarantee that EVS is already running."))) ∧
    (pid ≠ -1 →
      ((∃ entry ∈ table, entry.pid = pid) →
        set_or_find_pid table pid = Except.ok pid) ∧
      ((∀ entry ∈ table, entry.pid ≠ pid) →
        set_or_find_pid table pid = Except.error (Exc.valueError (Json.str
          "Invalid Process ID specified. EVS Process not found.")))) := by
  constructor
  · rw [set_or_find_pid, if_pos rfl, scan_foldl_eq]
    cases (table.filter fun p => p.name = evsExeName).getLast? <;> rfl
  · intro hpid
    constructor
    · rintro ⟨entry, hmem, hpe⟩
      have hsome : (table.find? (fun proc => proc.pid = pid)).isSome := by
        rw [List.find?_isSome]
        exact ⟨entry, hmem, by simp [hpe]⟩
      obtain ⟨x, hx⟩ := Option.isSome_iff_exists.mp hsome
      have hxp : x.pid = pid := by simpa using List.find?_some hx
      simp [set_or_find_pid, hpid, hx, hxp]
    · intro hnone
      have hfind : table.find? (fun proc => proc.pid = pid) = none := by
        rw [List.find?_eq_none]
        intro x hm
        simp [hnone x hm]
      simp [set_or_find_pid, hpid, hfind]

theorem set_or_find_pid_spec_witness :
    set_or_find_pid
        [⟨10, "a.exe"⟩, ⟨11, evsExeName⟩, ⟨12, evsExeName⟩, ⟨13, "b.exe"⟩] (-1) =
      Except.ok 12 ∧
    set_or_find_pid
        [⟨10, "a.exe"⟩, ⟨11, evsExeName⟩, ⟨12, evsExeName⟩, ⟨13, "b.exe"⟩] 10 =
      Except.ok 10 ∧
    set_or_find_pid
        [⟨10, "a.exe"⟩, ⟨11, evsExeName⟩, ⟨12, evsExeName⟩, ⟨13, "b.exe"⟩] 99 =
      Except.error (Exc.valueError (Json.str
        "Invalid Process ID specified. EVS Process not found.")) := by
  refine ⟨?_, ?_, ?_⟩
  · have h := (set_or_find_pid_spec
      [⟨10, "a.exe"⟩, ⟨11, evsExeName⟩, ⟨12, evsExeName⟩, ⟨13, "b.exe"⟩] 99).1
    simpa [evsExeName] using h
  · exact ((set_or_find_pid_spec
      [⟨10, "a.exe"⟩, ⟨11, evsExeName⟩, ⟨12, evsExeName⟩, ⟨13, "b.exe"⟩] 10).2
        (by decide)).1 ⟨⟨10, "a.exe"⟩, List.mem_cons_self _ _, rfl⟩
  · exact ((set_or_find_pid_spec
      [⟨10, "a.exe"⟩, ⟨11, evsExeName⟩, ⟨12, evsExeName⟩, ⟨13, "b.exe"⟩] 99).2
        (by decide)).2 (by decide)

/-- C8: one RPC call sends exactly one frame — the UTF-8 encoding of the
JSON serialization of `{"method": method, "args": args}` with a single
newline appended — and then receives exactly one response frame, which is
parsed by `json.loads`; no other frame is exchanged by the call. -/
theorem request_wire_format (loads : String → Option Json) (ch : Channel)
    (method : String) (args : List Json) (j : Json) (ch2 : Channel) :
    (send_json ch (Json.obj [("method", Json.str method), ("args", Json.arr args)])).sentFrames
      = ch.sentFrames ++
        [utf8Encode (dumps (Json.obj [("method", Json.str method), ("args", Json.arr args)]) ++ "\n")] ∧
    (request loads ch method args = some (j, ch2) →
      ch2.sentFrames = ch.sentFrames ++
        [utf8Encode (dumps (Json.obj [("method", Json.str method), ("args", Json.arr args)]) ++ "\n")] ∧
      ∃ frame rest, ch.incoming = frame :: rest ∧ ch2.incoming = rest ∧
        loads frame = some j) := by
  constructor
  · rfl
  · intro hreq
    rcases hch : ch.incoming with _ | ⟨frame, rest⟩
    · simp [request, recv_json, chanRead, send_json, chanWrite, hch] at hreq
    · rcases hl : loads frame with _ | jj
      · simp [request, recv_json, chanRead, send_json, chanWrite, hch, hl] at hreq
      · simp [request, recv_json, chanRead, send_json, chanWrite, hch, hl] at hreq
        obtain ⟨hj, hch2⟩ := hreq
        subst hj
        refine ⟨by rw [← hch2], frame, rest, rfl, by rw [← hch2], hl⟩

/-- Phase 2 with every attempt failing runs one attempt followed by one
sleep per remaining try, and ends without success. -/
theorem initPhase2_all_fail (oracle : Nat → Bool) :
    ∀ (t idx : Nat), (∀ i, i < t → oracle (idx + i) = false) →
    initPhase2 oracle idx t =
      ((List.range' idx t).flatMap
        (fun i => [P2Event.setModeAttempt i, P2Event.sleepOneSecond]), false) := by
  intro t
  induction t with
  | zero => intro idx _; rfl
  | succ n ih =>
    intro idx hfail
    have h0 : oracle idx = false := by simpa using hfail 0 (Nat.succ_pos n)
    have hrest := ih (idx + 1) (fun i hi => by
      have := hfail (i + 1) (Nat.succ_lt_succ hi)
      simpa [Nat.add_assoc, Nat.add_comm 1 i] using this)
    simp [initPhase2, h0, hrest, List.range'_succ]

/-- Phase 2 succeeds exactly when some attempt within the budget reports
success. -/
theorem initPhase2_success_iff (oracle : Nat → Bool) :
    ∀ (t idx : Nat),
    (initPhase2 oracle idx t).2 = true ↔ ∃ i, i < t ∧ oracle (idx + i) = true := by
  intro t
  induction t with
  | zero => intro idx; simp [initPhase2]
  | succ n ih =>
    intro idx
    by_cases h : oracle idx
    · simp only [initPhase2, h, if_true]
      simp only [true_iff]
      exact ⟨0, Nat.succ_pos n, by simpa using h⟩
    · simp only [initPhase2, h, if_false, Bool.false_eq_true]
      rw [ih (idx + 1)]
      constructor
      · rintro ⟨i, hi, ho⟩
        exact ⟨i + 1, Nat.succ_lt_succ hi,
          by simpa [Nat.add_assoc, Nat.add_comm 1 i] using ho⟩
      · rintro ⟨i, hi, ho⟩
        cases i with
        | zero => exact absurd (by simpa using ho) (by simpa using h)
        | succ k =>
          exact ⟨k, Nat.lt_of_succ_lt_succ hi,
            by simpa [Nat.add_assoc, Nat.add_comm 1 k] using ho⟩

/-- The exhausted phase-2 trace holds one attempt and one sleep per budget
unit. -/
theorem exhaustedTrace_counts (t : Nat) :
    ∀ s : Nat,
    attemptCount ((List.range' s t).flatMap
        (fun i => [P2Event.setModeAttempt i, P2Event.sleepOneSecond])) = t ∧
    sleepCount ((List.range' s t).flatMap
        (fun i => [P2Event.setModeAttempt i, P2Event.sleepOneSecond])) = t := by
  induction t with
  | zero => intro s; simp [attemptCount, sleepCount]
  | succ n ih =>
    intro s
    simpa [List.range'_succ, attemptCount, sleepCount] using ih (s + 1)

/-- C2: opening a channel to a process whose pipe exists but never enters
message-framed read mode fails with `ConnectionRefused` after exactly
`timeout` read-mode attempts, each followed by a one-second sleep; if any
attempt within the budget succeeds, the constructor returns a ready channel
and raises nothing. -/
theorem connect_startup_timeout (timeout : Nat) (setModeOracle : Nat → Bool)
    (h : Nat) :
    ((∀ i, i < timeout → setModeOracle i = false) →
      evsProcessInit (fun _ => some h) 1 setModeOracle timeout =
        some ((List.range' 0 timeout).flatMap
            (fun i => [P2Event.setModeAttempt i, P2Event.sleepOneSecond]),
          Except.error (Exc.valueError (Json.str
            "Invalid Process ID specified. EVS Process not found or connection refused."))) ∧
      attemptCount ((List.range' 0 timeout).flatMap
        (fun i => [P2Event.setModeAttempt i, P2Event.sleepOneSecond])) = timeout ∧
      sleepCount ((List.range' 0 timeout).flatMap
        (fun i => [P2Event.setModeAttempt i, P2Event.sleepOneSecond])) = timeout) ∧
    ((∃ j, j < timeout ∧ setModeOracle j = true) →
      ∃ trace, evsProcessInit (fun _ => some h) 1 setModeOracle timeout =
        some (trace, Except.ok h)) := by
  constructor
  · intro hfail
    have hp2 := initPhase2_all_fail setModeOracle timeout 0 (fun i hi => by
      simpa using hfail i hi)
    refine ⟨?_, (exhaustedTrace_counts timeout 0).1, (exhaustedTrace_counts timeout 0).2⟩
    simp [evsProcessInit, initPhase1, hp2]
  · rintro ⟨j, hj, hsucc⟩
    have hp2 : (initPhase2 setModeOracle 0 timeout).2 = true :=
      (initPhase2_success_iff setModeOracle timeout 0).mpr
        ⟨j, hj, by simpa using hsucc⟩
    refine ⟨(initPhase2 setModeOracle 0 timeout).1, ?_⟩
    simp [evsProcessInit, initPhase1, hp2]

theorem connect_startup_timeout_witness :
    evsProcessInit (fun _ => some 5) 1 (fun _ => false) 3 =
      some ((List.range' 0 3).flatMap
          (fun i => [P2Event.setModeAttempt i, P2Event.sleepOneSecond]),
        Except.error (Exc.valueError (Json.str
          "Invalid Process ID specified. EVS Process not found or connection refused."))) ∧
    ∃ trace, evsProcessInit (fun _ => some 5) 1 (fun i => decide (i = 1)) 3 =
      some (trace, Except.ok 5) :=
  ⟨((connect_startup_timeout 3 (fun _ => false) 5).1 (fun _ _ => rfl)).1,
   (connect_startup_timeout 3 (fun i => decide (i = 1)) 5).2 ⟨1, by decide, rfl⟩⟩

/-- The phase-1 loop as written never terminates when `CreateFile` keeps
failing: `attempts_remaining` stays positive because the failure branch
never decrements it, so no amount of observed iterations sees the loop
exit. -/
theorem initPhase1_stuck (createOracle : Nat → Option Nat)
    (hfail : ∀ i, createOracle i = none) (attempts : Int)
    (hpos : 0 < attempts) :
    ∀ fuel idx, initPhase1 createOracle attempts idx fuel = none := by
  intro fuel
  induction fuel with
  | zero => intro idx; rfl
  | succ n ih =>
    intro idx
    simp [initPhase1, hpos, hfail idx, ih (idx + 1)]

/-- C4 (refuting the 5-attempt bound): when the named pipe never exists,
the phase-1 loop of `_EvsProcess.__init__` never finishes — after any
number of iterations it is still retrying, because its failure branch never
decrements `attempts_remaining` — so the constructor never terminates
either, instead of stopping after 5 attempts with an invalid handle. -/
theorem connect_phase1_unbounded_retry (createOracle : Nat → Option Nat)
    (setModeOracle : Nat → Bool) (timeout : Nat)
    (hfail : ∀ i, createOracle i = none) :
    ∀ fuel, initPhase1 createOracle 5 0 fuel = none ∧
      evsProcessInit createOracle fuel setModeOracle timeout = none := by
  intro fuel
  have h1 := initPhase1_stuck createOracle hfail 5 (by norm_num) fuel 0
  exact ⟨h1, by simp [evsProcessInit, h1]⟩

theorem connect_phase1_unbounded_retry_witness :
    initPhase1 (fun _ => none) 5 0 7 = none ∧
    evsProcessInit (fun _ => none) 7 (fun _ => true) 3 = none :=
  connect_phase1_unbounded_retry (fun _ => none) (fun _ => true) 3
    (fun _ => rfl) 7

theorem request_wire_format_witness :
    (send_json (Channel.mk [] ["ok"])
        (Json.obj [("method", Json.str "GetModules"), ("args", Json.arr [])])).sentFrames
      = [] ++ [utf8Encode (dumps (Json.obj [("method", Json.str "GetModules"),
          ("args", Json.arr [])]) ++ "\n")] ∧
    ((Channel.mk [utf8Encode (dumps (Json.obj [("method", Json.str "GetModules"),
          ("args", Json.arr [])]) ++ "\n")] []).sentFrames
      = [] ++ [utf8Encode (dumps (Json.obj [("method", Json.str "GetModules"),
          ("args", Json.arr [])]) ++ "\n")] ∧
      ∃ frame rest, (Channel.mk [] ["ok"]).incoming = frame :: rest ∧
        (Channel.mk [utf8Encode (dumps (Json.obj [("method", Json.str "GetModules"),
            ("args", Json.arr [])]) ++ "\n")] []).incoming = rest ∧
        (fun _ : String => some Json.null) frame = some Json.null) := by
  have h := request_wire_format (fun _ => some Json.null) (Channel.mk [] ["ok"])
    "GetModules" [] Json.null
    (Channel.mk [utf8Encode (dumps (Json.obj [("method", Json.str "GetModules"),
        ("args", Json.arr [])]) ++ "\n")] [])
  exact ⟨h.1, h.2 rfl⟩

/-- Closes in a concatenated trace add up. -/
theorem closedCount_append (xs ys : List Event) :
    closedCount (xs ++ ys) = closedCount xs + closedCount ys := by
  induction xs with
  | nil => simp [closedCount]
  | cons hd tl ih =>
    cases hd with
    | call m => simp [closedCount, ih]
    | closed => simp [closedCount, ih]; omega

/-- The `try:` block itself never closes the channel: its trace is remote
calls only. -/
theorem sessionTry_no_close (env : FlowEnv) (w : Bool) :
    closedCount (sessionTry env w).1 = 0 := by
  rw [sessionTry]
  rcases hbr : build_result env.versionResp with e | v
  · rfl
  · dsimp only
    by_cases hv : pyEqFloat v 1 = false
    · simp [hv, closedCount]
    · simp only [hv, if_false]
      rcases w with _ | _
      · simp [closedCount]
      · rcases hw : build_result env.waitResp with e | u <;> simp [closedCount]

/-- C1 (amended): in both session flows, every exit of the caller's scope by
an exception — whether raised by the handshake, the readiness wait or the
caller's own logic — closes the channel exactly once and re-raises the
original exception unchanged; a normal exit closes the channel exactly once
provided the flow either skips the automatic shutdown or that shutdown call
succeeds (a failing shutdown call on the normal path skips the close and
propagates the shutdown error instead). -/
theorem session_cleanup (env : FlowEnv) (auto_shutdown auto_wait_for_ready : Bool) :
    (∀ e, (sessionTry env auto_wait_for_ready).2 = Except.error e →
      (closedCount (start_new env auto_shutdown auto_wait_for_ready).1 = 1 ∧
        (start_new env auto_shutdown auto_wait_for_ready).2 = Except.error e) ∧
      (closedCount (connect_to_existing env auto_shutdown auto_wait_for_ready).1 = 1 ∧
        (connect_to_existing env auto_shutdown auto_wait_for_ready).2 = Except.error e)) ∧
    ((sessionTry env auto_wait_for_ready).2 = Except.ok () →
      (auto_shutdown = false ∨ (∃ v, build_result env.shutdownResp = Except.ok v)) →
      (closedCount (start_new env auto_shutdown auto_wait_for_ready).1 = 1 ∧
        (start_new env auto_shutdown auto_wait_for_ready).2 = Except.ok ()) ∧
      (closedCount (connect_to_existing env auto_shutdown auto_wait_for_ready).1 = 1 ∧
        (connect_to_existing env auto_shutdown auto_wait_for_ready).2 = Except.ok ())) := by
  have hnc := sessionTry_no_close env auto_wait_for_ready
  rcases htb : sessionTry env auto_wait_for_ready with ⟨evs, r⟩
  rw [htb] at hnc
  constructor
  · intro e he
    simp only at he
    subst he
    have hfin : sessionFinish env auto_shutdown (evs, Except.error e) =
        (evs ++ [Event.closed], Except.error e) := rfl
    constructor <;>
      simp [start_new, connect_to_existing, htb, hfin, closedCount_append, hnc,
        closedCount]
  · intro hok hsd
    simp only at hok
    subst hok
    rcases hsd with hsd | ⟨v, hsd⟩
    · subst hsd
      have hfin : sessionFinish env false (evs, Except.ok ()) =
          (evs ++ [Event.closed], Except.ok ()) := rfl
      constructor <;>
        simp [start_new, connect_to_existing, htb, hfin, closedCount_append, hnc,
          closedCount]
    · have hfin : sessionFinish env auto_shutdown (evs, Except.ok ()) =
          (if auto_shutdown then (evs ++ [Event.call "Shutdown", Event.closed], Except.ok ())
           else (evs ++ [Event.closed], Except.ok ())) := by
        simp [sessionFinish, hsd]
      rcases auto_shutdown with _ | _ <;>
        constructor <;>
          simp [start_new, connect_to_existing, htb, hfin, closedCount_append, hnc,
            closedCount]

theorem session_cleanup_witness :
    (closedCount (start_new
        { versionResp := Json.obj [("Success", Json.bool true), ("Value", Json.num 1)],
          waitResp := Json.obj [("Success", Json.bool true), ("Value", Json.null)],
          shutdownResp := Json.obj [("Success", Json.bool true), ("Value", Json.null)],
          callerOutcome := Except.error (Exc.other 42) } true true).1 = 1 ∧
      (start_new
        { versionResp := Json.obj [("Success", Json.bool true), ("Value", Json.num 1)],
          waitResp := Json.obj [("Success", Json.bool true), ("Value", Json.null)],
          shutdownResp := Json.obj [("Success", Json.bool true), ("Value", Json.null)],
          callerOutcome := Except.error (Exc.other 42) } true true).2 =
        Except.error (Exc.other 42)) ∧
    (closedCount (connect_to_existing
        { versionResp := Json.obj [("Success", Json.bool true), ("Value", Json.num 1)],
          waitResp := Json.obj [("Success", Json.bool true), ("Value", Json.null)],
          shutdownResp := Json.obj [("Success", Json.bool true), ("Value", Json.null)],
          callerOutcome := Except.ok () } false true).1 = 1 ∧
      (connect_to_existing
        { versionResp := Json.obj [("Success", Json.bool true), ("Value", Json.num 1)],
          waitResp := Json.obj [("Success", Json.bool true), ("Value", Json.null)],
          shutdownResp := Json.obj [("Success", Json.bool true), ("Value", Json.null)],
          callerOutcome := Except.ok () } false true).2 = Except.ok ()) :=
  ⟨((session_cleanup
      { versionResp := Json.obj [("Success", Json.bool true), ("Value", Json.num 1)],
        waitResp := Json.obj [("Success", Json.bool true), ("Value", Json.null)],
        shutdownResp := Json.obj [("Success", Json.bool true), ("Value", Json.null)],
        callerOutcome := Except.error (Exc.other 42) } true true).1
      (Exc.other 42) rfl).1,
   ((session_cleanup
      { versionResp := Json.obj [("Success", Json.bool true), ("Value", Json.num 1)],
        waitResp := Json.obj [("Success", Json.bool true), ("Value", Json.null)],
        shutdownResp := Json.obj [("Success", Json.bool true), ("Value", Json.null)],
        callerOutcome := Except.ok () } false true).2 rfl (Or.inl rfl)).2⟩

/-- C1 counterexample: with a remote whose `Shutdown` call reports failure,
a session whose caller scope exits normally under `auto_shutdown = True`
never closes the channel — zero closes, not exactly one — and the
propagated error is the cleanup-phase shutdown error, so the claim's
"closed exactly once on every exit path" is false as stated. -/
theorem session_cleanup_counterexample :
    closedCount (start_new
      { versionResp := Json.obj [("Success", Json.bool true), ("Value", Json.num 1)],
        waitResp := Json.obj [("Success", Json.bool true), ("Value", Json.null)],
        shutdownResp := Json.obj [("Success", Json.bool false), ("Error", Json.str "shutdown failed")],
        callerOutcome := Except.ok () } true true).1 = 0 ∧
    (start_new
      { versionResp := Json.obj [("Success", Json.bool true), ("Value", Json.num 1)],
        waitResp := Json.obj [("Success", Json.bool true), ("Value", Json.null)],
        shutdownResp := Json.obj [("Success", Json.bool false), ("Error", Json.str "shutdown failed")],
        callerOutcome := Except.ok () } true true).2 =
      Except.error (Exc.valueError (Json.str "shutdown failed")) :=
  ⟨rfl, rfl⟩

/-- C5: in both flows, a handshake that reports any API version other than
`1.0` raises the `UnsupportedApiVersion` failure with no further remote
calls: the whole trace is the `Version` call followed by the cleanup close,
and the version error propagates. -/
theorem handshake_version_reject (env : FlowEnv)
    (auto_shutdown auto_wait_for_ready : Bool) (v : Json) :
    build_result env.versionResp = Except.ok v → pyEqFloat v 1 = false →
    start_new env auto_shutdown auto_wait_for_ready =
      ([Event.call "Version", Event.closed],
        Except.error (Exc.valueError (Json.str
          "EVS does not support proper API version for this release."))) ∧
    connect_to_existing env auto_shutdown auto_wait_for_ready =
      ([Event.call "Version", Event.closed],
        Except.error (Exc.valueError (Json.str
          "EVS does not support proper API version for this release."))) := by
  intro hok hne
  have htb : sessionTry env auto_wait_for_ready =
      ([Event.call "Version"], Except.error (Exc.valueError (Json.str
        "EVS does not support proper API version for this release."))) := by
    simp [sessionTry, hok, hne]
  constructor <;> simp [start_new, connect_to_existing, sessionFinish, htb]

theorem handshake_version_reject_witness :
    start_new
      { versionResp := Json.obj [("Success", Json.bool true), ("Value", Json.num 2)],
        waitResp := Json.null, shutdownResp := Json.null,
        callerOutcome := Except.ok () } true true =
      ([Event.call "Version", Event.closed],
        Except.error (Exc.valueError (Json.str
          "EVS does not support proper API version for this release."))) ∧
    connect_to_existing
      { versionResp := Json.obj [("Success", Json.bool true), ("Value", Json.num 2)],
        waitResp := Json.null, shutdownResp := Json.null,
        callerOutcome := Except.ok () } true true =
      ([Event.call "Version", Event.closed],
        Except.error (Exc.valueError (Json.str
          "EVS does not support proper API version for this release."))) :=
  handshake_version_reject
    { versionResp := Json.obj [("Success", Json.bool true), ("Value", Json.num 2)],
      waitResp := Json.null, shutdownResp := Json.null,
      callerOutcome := Except.ok () } true true (Json.num 2) rfl (by decide)

/-- Applying `Nat.digitChar` to a single digit yields a digit character. -/
theorem digitChar_isDigit (d : Nat) (hd : d < 10) :
    (Nat.digitChar d).isDigit = true := by
  interval_cases d <;> decide

/-- Reading back the value of a single digit character. -/
theorem digitChar_toNat (d : Nat) (hd : d < 10) :
    (Nat.digitChar d).toNat - 48 = d := by
  interval_cases d <;> decide

/-- Fixed-width parse inverts fixed-width zero-padded print: reading `w`
digits off `padNum w n` yields `n` (shifted into the accumulator) and leaves
the rest of the input untouched. -/
theorem readNum_padNum : ∀ (w n acc : Nat) (rest : List Char), n < 10 ^ w →
    readNum acc w (padNum w n ++ rest) = some (acc * 10 ^ w + n, rest) := by
  intro w
  induction w with
  | zero =>
    intro n acc rest hn
    have hn0 : n = 0 := Nat.lt_one_iff.mp (by simpa using hn)
    subst hn0
    simp [padNum, readNum]
  | succ w ih =>
    intro n acc rest hn
    have hq : n / 10 ^ w < 10 := by
      apply Nat.div_lt_of_lt_mul
      calc n < 10 ^ (w + 1) := hn
        _ = 10 ^ w * 10 := by rw [Nat.pow_succ]
    have hdig := digitChar_isDigit _ hq
    have hval := digitChar_toNat _ hq
    have hr : n % 10 ^ w < 10 ^ w :=
      Nat.mod_lt _ (Nat.pos_pow_of_pos w (by norm_num))
    simp only [padNum, List.cons_append, readNum, hdig, if_true, hval,
      List.append_eq]
    rw [ih (n % 10 ^ w) (acc * 10 + n / 10 ^ w) rest hr]
    congr 2
    have hmod : 10 ^ w * (n / 10 ^ w) + n % 10 ^ w = n := Nat.div_add_mod n (10 ^ w)
    rw [Nat.pow_succ]
    conv_rhs => rw [← hmod]
    ring

/-- Month lengths never exceed two digits. -/
theorem daysInMonth_le_31 (y m : Nat) : daysInMonth y m ≤ 31 := by
  unfold daysInMonth
  split_ifs <;> omega

/-- C10: the date helpers round-trip: for every valid datetime `d`, parsing
the scripting date string printed from it returns `d` exactly, because
`datetime_to_evsdate` always emits the fractional-seconds format that
`evsdate_to_datetime` tries first. -/
theorem evsdate_roundtrip (d : Datetime) (hv : validDatetime d = true) :
    evsdate_to_datetime (datetime_to_evsdate d) = some d := by
  rcases d with ⟨y, mo, da, h, mi, s, us⟩
  have hb := hv
  simp only [validDatetime, Bool.and_eq_true, decide_eq_true_eq, and_assoc] at hb
  obtain ⟨h1, h2, h3, h4, h5, h6, h7, h8, h9, h10⟩ := hb
  have hle := daysInMonth_le_31 y mo
  have hy : y < 10 ^ 4 := by norm_num; omega
  have hmo : mo < 10 ^ 2 := by norm_num; omega
  have hda : da < 10 ^ 2 := by norm_num; omega
  have hh : h < 10 ^ 2 := by norm_num; omega
  have hmi : mi < 10 ^ 2 := by norm_num; omega
  have hs : s < 10 ^ 2 := by norm_num; omega
  have hus : us < 10 ^ 6 := by norm_num; omega
  have r0 : ∀ (w n : Nat) (rest : List Char), n < 10 ^ w →
      readNum 0 w (padNum w n ++ rest) = some (n, rest) := by
    intro w n rest hn
    simpa using readNum_padNum w n 0 rest hn
  have hfrac : strptimeFrac (datetime_to_evsdate ⟨y, mo, da, h, mi, s, us⟩) =
      some ⟨y, mo, da, h, mi, s, us⟩ := by
    unfold datetime_to_evsdate strptimeFrac
    rw [r0 4 y _ hy]
    simp only [expectChar, if_true]
    rw [r0 2 mo _ hmo]
    simp only [expectChar, if_true]
    rw [r0 2 da _ hda]
    simp only [expectChar, if_true]
    rw [r0 2 h _ hh]
    simp only [expectChar, if_true]
    rw [r0 2 mi _ hmi]
    simp only [expectChar, if_true]
    rw [r0 2 s _ hs]
    simp only [expectChar, if_true]
    have h6us := r0 6 us [] hus
    rw [List.append_nil] at h6us
    rw [h6us]
    dsimp only
    rw [if_pos hv]
  simp [evsdate_to_datetime, hfrac]

theorem evsdate_roundtrip_witness :
    evsdate_to_datetime (datetime_to_evsdate ⟨2023, 5, 17, 12, 34, 56, 123456⟩) =
      some ⟨2023, 5, 17, 12, 34, 56, 123456⟩ :=
  evsdate_roundtrip ⟨2023, 5, 17, 12, 34, 56, 123456⟩ (by decide)

end Evs
